import Mathlib

/-!
Verification of the token/session subsystem of the spellhire backend
(`backend/app/core/security.py`, `backend/app/services/token_service.py`,
`backend/app/models/user.py`).

Modelling conventions:
- Python dicts (JWT payloads, claims maps) are association lists
  `List (String × CVal)` with last-set-wins lookup (`dget`/`dset`); only
  key lookup is ever observed by the code, so iteration order is not
  modelled.
- `datetime.utcnow()` is an explicit `now : Nat` (seconds); all calls of
  `utcnow` within one service operation are modelled as one instant.
- `uuid.uuid4()` calls that mint refresh-token ids are modelled as an
  explicit fresh-name supply passed to the operation; session primary
  keys are modelled by the `nextId` counter of the database state.
- A signed JWT is modelled as its payload together with the signing key
  and algorithm; `jose.jwt.decode` succeeds iff the key and algorithm
  match and the `exp` claim has not passed, which is exactly what the
  code relies on.
- SQLAlchemy sessions are explicit state passing on a `DB` value;
  raised exceptions become `Except` results.
-/

set_option autoImplicit false

deriving instance DecidableEq for Except

namespace Spellhire

/-- A Python value as it occurs in JWT payloads and claims dicts:
strings, ints/datetimes (seconds), booleans, and `None`. -/
inductive CVal where
  | s (v : String)
  | n (v : Nat)
  | b (v : Bool)
  | pynone
  deriving DecidableEq, Repr

/-- A Python dict with string keys, e.g. a JWT payload or a claims map. -/
abbrev Payload := List (String × CVal)

/-- Dict lookup, `d.get(k)`: `some v` if the key is present, else `none`. -/
def dget (d : Payload) (k : String) : Option CVal :=
  (d.find? (fun kv => decide (kv.1 = k))).map (fun kv => kv.2)

/-- Dict write, `d[k] = v` (also one step of `d.update(...)`): the new
binding wins over any previous binding of `k`. -/
def dset (d : Payload) (k : String) (v : CVal) : Payload :=
  (k, v) :: d.filter (fun kv => decide (kv.1 ≠ k))

/-- Dict merge `{**a, **b}` / `a.update(b)`: bindings of `b` win. -/
def dmerge (a b : Payload) : Payload :=
  b.foldl (fun acc kv => dset acc kv.1 kv.2) a

/-- Python truthiness of a `CVal` (`if not jti: ...`). -/
def cvalTruthy : CVal → Bool
  | CVal.s v => !(v == "")
  | CVal.n v => !(v == 0)
  | CVal.b v => v
  | CVal.pynone => false

/-- Python truthiness of `d.get(k)`: a missing key is `None`, falsy. -/
def truthy : Option CVal → Bool
  | none => false
  | some v => cvalTruthy v

theorem dget_dset_self (d : Payload) (k : String) (v : CVal) :
    dget (dset d k v) k = some v := by
  simp [dget, dset]

theorem find?_and_ne (d : Payload) (k k2 : String) (h : k2 ≠ k) :
    d.find? (fun a => !decide (a.1 = k) && decide (a.1 = k2))
      = d.find? (fun kv => decide (kv.1 = k2)) := by
  have hf : (fun a : String × CVal => !decide (a.1 = k) && decide (a.1 = k2))
      = (fun kv : String × CVal => decide (kv.1 = k2)) := by
    funext a
    by_cases h2 : a.1 = k2
    · have hnk : ¬ a.1 = k := by
        intro hc
        exact h (h2 ▸ hc)
      simp [h2, hnk, h]
    · simp [h2]
  rw [hf]

theorem dget_dset_ne (d : Payload) (k k2 : String) (v : CVal) (h : k2 ≠ k) :
    dget (dset d k v) k2 = dget d k2 := by
  have hk : ¬ k = k2 := fun hc => h hc.symm
  simp [dget, dset, List.find?, hk, find?_and_ne d k k2 h]

/-! ## Configuration (`backend/app/core/config.py`)

`SECRET_KEY` is supplied by the environment; only its equality with
itself and with other keys is ever observed, so it is modelled as a
fixed abstract string. The numeric lifetimes are the defaults declared
in `Settings`, converted to seconds. -/

namespace settings

def SECRET_KEY : String := "deployment-jwt-secret-key-0123456789ab"

def ALGORITHM : String := "HS256"

/-- `ACCESS_TOKEN_EXPIRE_MINUTES: int = 30`. -/
def ACCESS_TOKEN_EXPIRE_MINUTES : Nat := 30

/-- `REFRESH_TOKEN_EXPIRE_DAYS: int = 7`. -/
def REFRESH_TOKEN_EXPIRE_DAYS : Nat := 7

end settings

/-- Seconds in one minute, for `timedelta(minutes=...)`. -/
def minuteSecs : Nat := 60

/-- Seconds in one day, for `timedelta(days=...)`. -/
def daySecs : Nat := 86400

/-! ## Token issuer (`backend/app/core/security.py`, `SecurityService`) -/

/-- A signed JWT: the encoded payload plus the key and algorithm it was
signed with. `jose.jwt.decode(token, key, algorithms=[alg])` recovers
the payload iff key and algorithm match (signature validity) and the
`exp` claim has not passed. -/
structure Jwt where
  payload : Payload
  key : String
  alg : String
  deriving DecidableEq, Repr

/-- The `exp`-claim validation performed inside `jose.jwt.decode`:
a numeric `exp` strictly in the past raises `ExpiredSignatureError`
(a `JWTError`); a malformed `exp` raises `JWTClaimsError` (also a
`JWTError`); a missing `exp` is not checked under default options. -/
def expClaimRejects (p : Payload) (now : Nat) : Bool :=
  match dget p "exp" with
  | some (CVal.n e) => decide (e < now)
  | some _ => true
  | none => false

/-- `expires_delta if expires_delta is not None else
timedelta(minutes=settings.ACCESS_TOKEN_EXPIRE_MINUTES)`. -/
def accessDelta : Option Nat → Nat
  | some d => d
  | none => settings.ACCESS_TOKEN_EXPIRE_MINUTES * minuteSecs

/-- `expires_delta if expires_delta is not None else
timedelta(days=settings.REFRESH_TOKEN_EXPIRE_DAYS)`. -/
def refreshDelta : Option Nat → Nat
  | some d => d
  | none => settings.REFRESH_TOKEN_EXPIRE_DAYS * daySecs

/-- `SecurityService.create_access_token(data, expires_delta=None)`:
copies `data`, adds `exp = utcnow() + delta` (default 30 minutes) and
`type = "access"`, and signs with `settings.SECRET_KEY`/`ALGORITHM`. -/
def create_access_token (data : Payload) (expires_delta : Option Nat) (now : Nat) : Jwt :=
  let expire := now + accessDelta expires_delta
  let to_encode := dset (dset data "exp" (CVal.n expire)) "type" (CVal.s "access")
  { payload := to_encode, key := settings.SECRET_KEY, alg := settings.ALGORITHM }

/-- `SecurityService.create_refresh_token(claims, expires_delta=None)`:
generates a fresh `jti` (here an explicit parameter standing for
`str(uuid.uuid4())`), copies `claims`, adds `exp = utcnow() + delta`
(default 7 days), `type = "refresh"` and `jti`, signs, and returns
`(token, jti)`. -/
def create_refresh_token (claims : Payload) (jti : String) (expires_delta : Option Nat) (now : Nat) :
    Jwt × String :=
  let expire := now + refreshDelta expires_delta
  let to_encode := dset (dset (dset claims "exp" (CVal.n expire)) "type" (CVal.s "refresh"))
    "jti" (CVal.s jti)
  ({ payload := to_encode, key := settings.SECRET_KEY, alg := settings.ALGORITHM }, jti)

/-- `SecurityService.verify_access_token(token)`: decode (signature,
algorithm, `exp`), then require `payload["type"] == "access"`. A decode
failure is reported as `AuthenticationError("Invalid access token")`, a
wrong type tag as `AuthenticationError("Invalid token type")`. -/
def verify_access_token (token : Jwt) (now : Nat) : Except String Payload :=
  if token.key ≠ settings.SECRET_KEY ∨ token.alg ≠ settings.ALGORITHM then
    Except.error "Invalid access token"
  else if expClaimRejects token.payload now then
    Except.error "Invalid access token"
  else if dget token.payload "type" ≠ some (CVal.s "access") then
    Except.error "Invalid token type"
  else
    Except.ok token.payload

/-- `SecurityService.verify_refresh_token(token)`: decode (signature,
algorithm, `exp`), then require `payload["type"] == "refresh"`. A decode
failure is reported as `AuthenticationError("Invalid refresh token")`, a
wrong type tag as `AuthenticationError("Invalid token type")`. -/
def verify_refresh_token (token : Jwt) (now : Nat) : Except String Payload :=
  if token.key ≠ settings.SECRET_KEY ∨ token.alg ≠ settings.ALGORITHM then
    Except.error "Invalid refresh token"
  else if expClaimRejects token.payload now then
    Except.error "Invalid refresh token"
  else if dget token.payload "type" ≠ some (CVal.s "refresh") then
    Except.error "Invalid token type"
  else
    Except.ok token.payload

/-! ## Data model (`backend/app/models/user.py`, `backend/app/models/enums.py`)

UUID-valued identifiers (`users.id`, `user_sessions.user_id`) are
modelled as abstract strings; the `uuid.UUID(...)`/`str(...)`
conversions between a well-formed uuid string and the UUID object are
identities at this level of abstraction. Session primary keys are
modelled as consecutive naturals drawn from `DB.nextId`. -/

/-- `UserStatus(str, enum.Enum)`. -/
inductive UserStatus where
  | PENDING_VERIFICATION
  | VERIFIED
  | ACTIVE
  | SUSPENDED
  | DEACTIVATED
  deriving DecidableEq, Repr

/-- The `str` value of a `UserStatus` member (str-enums compare equal
to their value strings). -/
def UserStatus.value : UserStatus → String
  | UserStatus.PENDING_VERIFICATION => "PENDING_VERIFICATION"
  | UserStatus.VERIFIED => "VERIFIED"
  | UserStatus.ACTIVE => "ACTIVE"
  | UserStatus.SUSPENDED => "SUSPENDED"
  | UserStatus.DEACTIVATED => "DEACTIVATED"

/-- `Role(str, enum.Enum)` (the `user_roles.role` column). -/
inductive Role where
  | CANDIDATE
  | EMPLOYER
  deriving DecidableEq, Repr

def Role.value : Role → String
  | Role.CANDIDATE => "CANDIDATE"
  | Role.EMPLOYER => "EMPLOYER"

/-- The fields of `CandidateProfile` read by the claims builder. -/
structure CandidateProfileRec where
  first_name : String
  last_name : String
  is_profile_complete : Bool
  deriving DecidableEq, Repr

/-- The fields of `EmployerProfile` read by the claims builder
(`organization_id` is stored as a uuid and stringified into claims;
`role` is the `EmployerRole` str-enum value). -/
structure EmployerProfileRec where
  first_name : String
  last_name : String
  organization_id : String
  role : String
  is_profile_complete : Bool
  deriving DecidableEq, Repr

/-- One `users` row together with its eagerly loaded relationships
(`roles`, `candidate_profile`, `employer_profile`), as selected by
`TokenService._fetch_user_claims`. Each element of `roles` is the
`role` column of one `user_roles` row, in relationship order. -/
structure UserRec where
  id : String
  email : String
  email_verified_at : Option Nat
  status : UserStatus
  roles : List Role
  candidate_profile : Option CandidateProfileRec
  employer_profile : Option EmployerProfileRec
  deriving DecidableEq, Repr

/-- One `user_sessions` row (`UserSession`). -/
structure SessionRow where
  id : Nat
  user_id : String
  jti : String
  device : Option String
  ip_address : Option String
  user_agent : Option String
  created_at : Nat
  expires_at : Nat
  revoked_at : Option Nat
  last_used_at : Option Nat
  deriving DecidableEq, Repr

/-- The database state visible to the token service: the `users` and
`user_sessions` tables, plus the generator for fresh session primary
keys. -/
structure DB where
  users : List UserRec
  sessions : List SessionRow
  nextId : Nat
  deriving DecidableEq, Repr

/-! ## TokenService (`backend/app/services/token_service.py`)

All claims below concern the caller-supplied-`db` paths
(`commit=False`); the `db is None` convenience wrappers only open a
session, delegate to the same `_internal` body and commit. -/

/-- A database access performed by `_refresh_internal`, recorded so
that short-circuit properties (which reads/writes happened) can be
stated. -/
inductive DbEvent where
  | selectSessionByJti (jti : CVal)
  | insertSession (row : SessionRow)
  | updateRevokeSession (id : Nat)
  deriving DecidableEq, Repr

/-- `true` iff the trace contains no insert and no revoke write. -/
def readOnlyTrace (tr : List DbEvent) : Bool :=
  tr.all fun e =>
    match e with
    | DbEvent.selectSessionByJti _ => true
    | _ => false

/-- A Python exception escaping the try-body of a service method:
an `AuthenticationError(msg)`, a SQLAlchemy `IntegrityError` (unique
constraint violation at flush), or a `TypeError` (bad call). -/
inductive PyErr where
  | auth (msg : String)
  | integrity (msg : String)
  | typeErrBadCall (msg : String)
  deriving DecidableEq, Repr

/-- `TokenService._fetch_user_claims(user_id, db)`: select the user with
profiles and roles; raise `AuthenticationError` if absent or if
`user.status in ("SUSPENDED", "DEACTIVATED")` (str-enum comparison);
otherwise assemble the claims dict. -/
def fetch_user_claims (user_id : String) (db : DB) : Except String Payload :=
  match db.users.find? (fun u => decide (u.id = user_id)) with
  | none => Except.error "User not found"
  | some user =>
    if user.status.value = "SUSPENDED" ∨ user.status.value = "DEACTIVATED" then
      Except.error ("Account is " ++ user.status.value.toLower)
    else
      let claims : Payload :=
        [("email", CVal.s user.email),
         ("email_verified", CVal.b user.email_verified_at.isSome),
         ("status", CVal.s user.status.value)]
      let primary_role := user.roles.head?
      let claims := dset claims "user_type"
        (match primary_role with
         | some r => CVal.s r.value
         | none => CVal.pynone)
      let claims := match user.candidate_profile with
        | some cp =>
          dmerge claims
            [("first_name", CVal.s cp.first_name),
             ("last_name", CVal.s cp.last_name),
             ("profile_complete", CVal.b cp.is_profile_complete)]
        | none => claims
      let claims := match user.employer_profile with
        | some ep =>
          dmerge claims
            [("first_name", CVal.s ep.first_name),
             ("last_name", CVal.s ep.last_name),
             ("organization_id", CVal.s ep.organization_id),
             ("role", CVal.s ep.role),
             ("profile_complete", CVal.b ep.is_profile_complete)]
        | none => claims
      Except.ok claims

/-- The dict returned by `_create_token_pair_internal`. `session_id` is
the primary key of the inserted row (stringified by the source for the
response; kept numeric here). -/
structure TokenPairResult where
  access_token : Jwt
  refresh_token : Jwt
  token_type : String
  expires_in : Nat
  session_id : Nat
  jti : String
  deriving DecidableEq, Repr

/-- The SQLSTATE-style message of a `user_sessions.jti` unique
constraint violation raised at `flush()`. -/
def jtiConflictMsg : String := "UNIQUE constraint failed: user_sessions.jti"

/-- `TokenService._create_token_pair_internal(user_id, db, user_agent,
ip_address, commit)`: fetch fresh claims, build `{sub} ∪ claims`, sign
the access token, sign the refresh token with a fresh `jti`
(`supply 0`; a retrying implementation would draw `supply 1, ...`),
then insert the session row with
`expires_at = utcnow() + timedelta(days=REFRESH_TOKEN_EXPIRE_DAYS)`.
The insert violates the `jti` unique constraint iff an existing row has
the same `jti`; there is no retry in the source. -/
def create_token_pair_internal (user_id : String) (db : DB)
    (user_agent ip_address : Option String) (supply : Nat → String) (now : Nat) :
    Except PyErr (TokenPairResult × DB) :=
  match fetch_user_claims user_id db with
  | Except.error m => Except.error (PyErr.auth m)
  | Except.ok user_claims =>
    let base_claims : Payload := [("sub", CVal.s user_id)]
    let claims := dmerge base_claims user_claims
    let access_token := create_access_token claims none now
    let rt := create_refresh_token claims (supply 0) none now
    let expires_at := now + settings.REFRESH_TOKEN_EXPIRE_DAYS * daySecs
    let row : SessionRow :=
      { id := db.nextId, user_id := user_id, jti := rt.2, device := user_agent,
        ip_address := ip_address, user_agent := user_agent, created_at := now,
        expires_at := expires_at, revoked_at := none, last_used_at := none }
    if db.sessions.any (fun r => decide (r.jti = rt.2)) then
      Except.error (PyErr.integrity jtiConflictMsg)
    else
      Except.ok
        ({ access_token := access_token, refresh_token := rt.1,
           token_type := "bearer",
           expires_in := settings.ACCESS_TOKEN_EXPIRE_MINUTES * minuteSecs,
           session_id := db.nextId, jti := rt.2 },
         { db with sessions := db.sessions ++ [row], nextId := db.nextId + 1 })

/-- Outcome of `_refresh_internal` after its exception handlers: the
result (an `AuthenticationError` message on failure), the resulting
database state, and the trace of database accesses performed. -/
structure RefreshOut where
  result : Except String TokenPairResult
  db : DB
  trace : List DbEvent
  deriving Repr

/-- The try-body of `TokenService._refresh_internal(refresh_token, db,
user_agent, ip_address, commit)`:
1. `SecurityService.verify_refresh_token` — pure, no database access;
2. `payload.get("jti")` / `payload.get("sub")`, rejecting falsy values;
3. select the session row by `jti` (`scalar_one_or_none`);
4. reject if `revoked_at is not None` or `expires_at < utcnow()`;
5. rotation: the source (line 202) calls
   `TokenService.create_token_pair(user_id=str(session_row.user_id),
   db=db, user_agent=user_agent, ip_address=ip_address)`. The signature
   of `create_token_pair` is `(user_id, user_type, db=None, ...)` with
   no default for `user_type`, so this call raises
   `TypeError: create_token_pair() missing 1 required positional
   argument user_type` before the callee body runs — no claims
   fetch, no insert and no revoke update are ever executed. -/
def refresh_internal_body (tok : Jwt) (db : DB) (now : Nat) :
    Except PyErr TokenPairResult × DB × List DbEvent :=
  match verify_refresh_token tok now with
  | Except.error m => (Except.error (PyErr.auth m), db, [])
  | Except.ok payload =>
    let jtiv := dget payload "jti"
    let subv := dget payload "sub"
    if !truthy jtiv || !truthy subv then
      (Except.error (PyErr.auth "Invalid refresh token payload"), db, [])
    else
      match jtiv with
      | none => (Except.error (PyErr.auth "Invalid refresh token payload"), db, [])
      | some jv =>
        let ev := [DbEvent.selectSessionByJti jv]
        match db.sessions.find? (fun r => decide (CVal.s r.jti = jv)) with
        | none => (Except.error (PyErr.auth "Refresh token session not found"), db, ev)
        | some row =>
          if row.revoked_at.isSome then
            (Except.error (PyErr.auth "Refresh token revoked"), db, ev)
          else if row.expires_at < now then
            (Except.error (PyErr.auth "Refresh token expired"), db, ev)
          else
            (Except.error (PyErr.typeErrBadCall
              "create_token_pair() missing 1 required positional argument: user_type"),
             db, ev)

/-- `TokenService._refresh_internal` with its exception handlers:
`except AuthenticationError: raise` re-raises unchanged, and
`except Exception: raise AuthenticationError("Failed to refresh
token")` converts every other exception. -/
def refresh_internal (tok : Jwt) (db : DB) (now : Nat) : RefreshOut :=
  match refresh_internal_body tok db now with
  | (Except.ok v, db2, tr) => { result := Except.ok v, db := db2, trace := tr }
  | (Except.error (PyErr.auth m), db2, tr) => { result := Except.error m, db := db2, trace := tr }
  | (Except.error _, db2, tr) =>
    { result := Except.error "Failed to refresh token", db := db2, trace := tr }

/-- `TokenService.revoke_token(refresh_token, db)` on the
caller-supplied-`db` path: verify the refresh JWT (an
`AuthenticationError` is swallowed into `False`), read
`payload.get("jti")` (falsy means `False`), then execute
`UPDATE user_sessions SET revoked_at = utcnow() WHERE jti = :jti`
unconditionally — the update also rewrites `revoked_at` on rows that
were already revoked — and return `True`. -/
def revoke_token (tok : Jwt) (db : DB) (now : Nat) : Bool × DB :=
  match verify_refresh_token tok now with
  | Except.error _ => (false, db)
  | Except.ok payload =>
    match dget payload "jti" with
    | none => (false, db)
    | some jv =>
      if !cvalTruthy jv then
        (false, db)
      else
        (true,
         { db with sessions := db.sessions.map fun r =>
             if CVal.s r.jti = jv then { r with revoked_at := some now } else r })

/-- `TokenService.revoke_all_user_tokens(user_id, db)` on the
caller-supplied-`db` path: `UPDATE user_sessions SET revoked_at =
utcnow() WHERE user_id = :uuid`, then return `True`. The
`uuid.UUID(user_id)` parse is the identity on the well-formed owner ids
quantified over here. -/
def revoke_all_user_tokens (user_id : String) (db : DB) (now : Nat) : Bool × DB :=
  (true,
   { db with sessions := db.sessions.map fun r =>
       if r.user_id = user_id then { r with revoked_at := some now } else r })

/-! ## Concrete states used by witnesses and counterexamples -/

/-- An active candidate user, owner id `u1`. -/
def activeCandidate : UserRec :=
  { id := "u1", email := "cand@example.com", email_verified_at := some 100,
    status := UserStatus.ACTIVE, roles := [Role.CANDIDATE],
    candidate_profile := some
      { first_name := "Ada", last_name := "L", is_profile_complete := true },
    employer_profile := none }

/-- A suspended employer user, owner id `u2`. -/
def suspendedEmployer : UserRec :=
  { id := "u2", email := "emp@example.com", email_verified_at := some 100,
    status := UserStatus.SUSPENDED, roles := [Role.EMPLOYER],
    candidate_profile := none,
    employer_profile := some
      { first_name := "Bob", last_name := "M", organization_id := "org1",
        role := "ADMIN", is_profile_complete := true } }

/-- A live session for `u1` with `jti = "J1"`, expiring at 1000. -/
def sess1 : SessionRow :=
  { id := 1, user_id := "u1", jti := "J1", device := none, ip_address := none,
    user_agent := none, created_at := 0, expires_at := 1000, revoked_at := none,
    last_used_at := none }

/-- A live session for `u2` with `jti = "J2"`, expiring at 1000. -/
def sess2 : SessionRow :=
  { id := 2, user_id := "u2", jti := "J2", device := none, ip_address := none,
    user_agent := none, created_at := 0, expires_at := 1000, revoked_at := none,
    last_used_at := none }

/-- A database holding the active user `u1` and its live session. -/
def db1 : DB := { users := [activeCandidate], sessions := [sess1], nextId := 3 }

/-- A database holding the suspended user `u2` and its live session. -/
def db2 : DB := { users := [suspendedEmployer], sessions := [sess2], nextId := 3 }

/-- The refresh token of `sess1` as issued at time 0 with lifetime 1000. -/
def tok1 : Jwt := (create_refresh_token [("sub", CVal.s "u1")] "J1" (some 1000) 0).1

/-- The refresh token of `sess2` as issued at time 0 with lifetime 1000. -/
def tok2 : Jwt := (create_refresh_token [("sub", CVal.s "u2")] "J2" (some 1000) 0).1

/-- An access token wrongly presented where a refresh token is expected. -/
def accessTok : Jwt := create_access_token [("sub", CVal.s "u1")] (some 1000) 0

/-- A uuid4 supply whose draws are all fresh for `db1`. -/
def freshSupply : Nat → String := fun n => "F" ++ toString n

/-- A uuid4 supply whose first draw collides with `sess1.jti` while all
later draws are fresh: a retry-with-new-id implementation would succeed
with `"F1"`. -/
def collidingSupply : Nat → String := fun n => if n = 0 then "J1" else "F" ++ toString n

/-- A copy of `db1` in which the only session is already revoked. -/
def revokedDb : DB :=
  { users := [activeCandidate],
    sessions := [{ sess1 with revoked_at := some 5 }], nextId := 3 }

/-- A database holding both owners and both live sessions. -/
def db3 : DB :=
  { users := [activeCandidate, suspendedEmployer],
    sessions := [sess1, sess2], nextId := 5 }

/-! ## General lemmas about the embedded operations -/

/-- The effect of one `revoke_token` update on the sessions table:
set `revoked_at = now` on every row matching the jti value `jv`. -/
def revokeMatching (jv : CVal) (now : Nat) (l : List SessionRow) : List SessionRow :=
  l.map fun r => if CVal.s r.jti = jv then { r with revoked_at := some now } else r

/-- The hypothesis of C5, from the spec validity rule: the session row
for `jv` is missing, or fails `revoked_at IS NULL AND expires_at >
now`. -/
def sessionMissingOrInvalid (db : DB) (jv : CVal) (now : Nat) : Bool :=
  match db.sessions.find? (fun r => decide (CVal.s r.jti = jv)) with
  | none => true
  | some row => row.revoked_at.isSome || decide (row.expires_at ≤ now)

/-- Every execution of `_refresh_internal` fails, leaves the database
untouched, and performs no insert and no revoke write: the rotation
step of the source raises `TypeError` (missing `user_type` argument)
before `create_token_pair` runs. -/
theorem refresh_never_writes (tok : Jwt) (db : DB) (now : Nat) :
    (refresh_internal tok db now).result.isOk = false ∧
    (refresh_internal tok db now).db = db ∧
    readOnlyTrace (refresh_internal tok db now).trace = true := by
  have h : ∃ e tr, refresh_internal_body tok db now = (Except.error e, db, tr) ∧
      readOnlyTrace tr = true := by
    unfold refresh_internal_body
    split
    · exact ⟨_, _, rfl, rfl⟩
    · dsimp only
      split
      · exact ⟨_, _, rfl, rfl⟩
      · split
        · exact ⟨_, _, rfl, rfl⟩
        · split
          · exact ⟨_, _, rfl, rfl⟩
          · split
            · exact ⟨_, _, rfl, rfl⟩
            · split
              · exact ⟨_, _, rfl, rfl⟩
              · exact ⟨_, _, rfl, rfl⟩
  obtain ⟨e, tr, hbody, htr⟩ := h
  unfold refresh_internal
  rw [hbody]
  cases e <;> simp [htr, Except.isOk, Except.toBool]

/-! ## Claim theorems -/

/-- C1: the claim says a cryptographically valid refresh token whose
session row is live makes Refresh succeed with a new token pair. The
code cannot: `_refresh_internal` calls `create_token_pair` without the
required `user_type` argument, so even on the fully valid state `db1`
(active owner `u1`, live session `J1`, presented token `tok1` at time
10) Refresh raises `AuthenticationError("Failed to refresh token")`. -/
theorem refresh_valid_token_always_fails :
    (refresh_internal tok1 db1 10).result = Except.error "Failed to refresh token" := by
  decide

/-- C2: the claim says every Refresh reaching the rotation step inserts
the new session row and then revokes the old one. On the fully valid
state `db1` the rotation step is reached (the session lookup succeeded
and both validity checks passed), yet the recorded database accesses
are exactly the single session select: no insert and no revoke write is
ever performed, because the rotation call raises `TypeError` first. The
old session row is left untouched. -/
theorem refresh_rotation_no_insert_no_revoke :
    (refresh_internal tok1 db1 10).trace = [DbEvent.selectSessionByJti (CVal.s "J1")] ∧
    (refresh_internal tok1 db1 10).db = db1 := by
  decide

/-- C3 counterexample: revoking the same refresh token twice (at times
10 and 20) succeeds both times, but after the second call the session
row holds `revoked_at = 20`, not the timestamp 10 set by the first call — the
unconditional `UPDATE` overwrites it, refuting the claim that the first
timestamp is preserved. -/
theorem revoke_twice_overwrites_timestamp :
    (revoke_token tok1 db1 10).1 = true ∧
    (revoke_token tok1 (revoke_token tok1 db1 10).2 20).1 = true ∧
    (revoke_token tok1 db1 10).2.sessions.map (fun r => r.revoked_at) = [some 10] ∧
    (revoke_token tok1 (revoke_token tok1 db1 10).2 20).2.sessions.map
      (fun r => r.revoked_at) = [some 20] ∧
    ¬ (revoke_token tok1 (revoke_token tok1 db1 10).2 20).2.sessions.map
      (fun r => r.revoked_at) = [some 10] := by
  decide

/-- C3 amended: calling `revoke_token` twice with the same refresh
token succeeds (returns `True`) both times, and after the second call
every session row matching the `jti` of the token holds the timestamp
of the second call — `revoked_at` is overwritten, not preserved. -/
theorem revoke_token_twice_succeeds_overwrites (db : DB) (tok : Jwt) (now1 now2 : Nat)
    (p : Payload) (jv : CVal)
    (h1 : verify_refresh_token tok now1 = Except.ok p)
    (h2 : verify_refresh_token tok now2 = Except.ok p)
    (hj : dget p "jti" = some jv)
    (ht : cvalTruthy jv = true) :
    (revoke_token tok db now1).1 = true ∧
    (revoke_token tok (revoke_token tok db now1).2 now2).1 = true ∧
    ∀ r ∈ (revoke_token tok (revoke_token tok db now1).2 now2).2.sessions,
      CVal.s r.jti = jv → r.revoked_at = some now2 := by
  have e1 : revoke_token tok db now1
      = (true, { db with sessions := revokeMatching jv now1 db.sessions }) := by
    simp [revoke_token, h1, hj, ht, revokeMatching]
  have e2 : revoke_token tok (revoke_token tok db now1).2 now2
      = (true, { db with
          sessions := revokeMatching jv now2 (revokeMatching jv now1 db.sessions) }) := by
    rw [e1]
    simp [revoke_token, h2, hj, ht, revokeMatching]
  refine ⟨by rw [e1], by rw [e2], ?_⟩
  rw [e2]
  intro r hr hjti
  rw [revokeMatching, List.mem_map] at hr
  obtain ⟨x, hx, hfx⟩ := hr
  by_cases hc : CVal.s x.jti = jv
  · rw [← hfx]
    simp [hc]
  · rw [← hfx] at hjti
    simp [hc] at hjti

/-- C3 amended, witness at the concrete state `db1`. -/
theorem revoke_token_twice_succeeds_overwrites_witness :
    (revoke_token tok1 db1 10).1 = true ∧
    (revoke_token tok1 (revoke_token tok1 db1 10).2 20).1 = true ∧
    ∀ r ∈ (revoke_token tok1 (revoke_token tok1 db1 10).2 20).2.sessions,
      CVal.s r.jti = CVal.s "J1" → r.revoked_at = some 20 :=
  revoke_token_twice_succeeds_overwrites db1 tok1 10 20 tok1.payload (CVal.s "J1")
    (by decide) (by decide) (by decide) (by decide)

/-- C4: if cryptographic verification of the presented token fails
(bad key/algorithm, expired `exp`, or type tag other than `"refresh"`),
`_refresh_internal` re-raises the `AuthenticationError` untouched, with
no database access at all: the state is unchanged and the access trace
is empty. -/
theorem refresh_crypto_failure_short_circuits (tok : Jwt) (db : DB) (now : Nat) (m : String)
    (h : verify_refresh_token tok now = Except.error m) :
    refresh_internal tok db now = { result := Except.error m, db := db, trace := [] } := by
  unfold refresh_internal refresh_internal_body
  rw [h]

/-- C4 witness: an access token presented to Refresh fails verification
(type tag `"access"`) and Refresh performs no database access. -/
theorem refresh_crypto_failure_short_circuits_witness :
    refresh_internal accessTok db1 5
      = { result := Except.error "Invalid token type", db := db1, trace := [] } :=
  refresh_crypto_failure_short_circuits accessTok db1 5 "Invalid token type" (by decide)

/-- C5: if the presented token verifies but its session row is missing,
revoked, or not valid under `revoked_at IS NULL AND expires_at > now`
(including `expires_at = now`), Refresh fails with an
`AuthenticationError`, the database is unchanged, and no session row is
inserted. (At `expires_at = now` the strict `expires_at < utcnow()` check of the
source lets execution continue, but the rotation step then
fails before inserting anything, so the claimed outcome still holds.) -/
theorem refresh_invalid_session_fails_no_insert (tok : Jwt) (db : DB) (now : Nat)
    (p : Payload) (jv : CVal)
    (hv : verify_refresh_token tok now = Except.ok p)
    (hj : dget p "jti" = some jv)
    (hcase : sessionMissingOrInvalid db jv now = true) :
    (refresh_internal tok db now).result.isOk = false ∧
    (refresh_internal tok db now).db = db ∧
    readOnlyTrace (refresh_internal tok db now).trace = true :=
  refresh_never_writes tok db now

/-- C5 witness: presenting the already-revoked session of `revokedDb`
fails and creates nothing. -/
theorem refresh_invalid_session_fails_no_insert_witness :
    (refresh_internal tok1 revokedDb 10).result.isOk = false ∧
    (refresh_internal tok1 revokedDb 10).db = revokedDb ∧
    readOnlyTrace (refresh_internal tok1 revokedDb 10).trace = true :=
  refresh_invalid_session_fails_no_insert tok1 revokedDb 10 tok1.payload (CVal.s "J1")
    (by decide) (by decide) (by decide)

/-- C6 counterexample: with a uuid4 supply whose first draw collides
with the existing `jti = "J1"` but whose second draw `"F1"` is fresh,
`_create_token_pair_internal` fails with the integrity error instead of
retrying; the same call under a fresh first draw succeeds, so the
failure is caused solely by the collision. This refutes both the
retry-with-fresh-id and the never-surfaced parts of the claim: there is
no handler around the insert anywhere in `create_token_pair` or in
`AuthService.login_user`, so the error reaches the caller of Login. -/
theorem create_token_pair_collision_not_retried :
    create_token_pair_internal "u1" db1 none none collidingSupply 10
      = Except.error (PyErr.integrity jtiConflictMsg) ∧
    db1.sessions.all (fun r => !(r.jti == collidingSupply 1)) = true ∧
    (create_token_pair_internal "u1" db1 none none freshSupply 10).isOk = true := by
  decide

/-- C6 amended: a `jti` collision on the session insert is not retried:
whenever the claims fetch succeeds and the drawn `jti` (`supply 0`)
already exists in the sessions table, `_create_token_pair_internal`
surfaces the integrity error to its caller. -/
theorem create_token_pair_collision_error_surfaces (uid : String) (db : DB)
    (ua ip : Option String) (supply : Nat → String) (now : Nat)
    (hc : (fetch_user_claims uid db).isOk = true)
    (hdup : db.sessions.any (fun r => decide (r.jti = supply 0)) = true) :
    create_token_pair_internal uid db ua ip supply now
      = Except.error (PyErr.integrity jtiConflictMsg) := by
  cases hfc : fetch_user_claims uid db with
  | error m =>
    rw [hfc] at hc
    simp [Except.isOk, Except.toBool] at hc
  | ok c =>
    unfold create_token_pair_internal
    rw [hfc]
    simp [hdup, create_refresh_token]

/-- C6 amended, witness at the colliding concrete input. -/
theorem create_token_pair_collision_error_surfaces_witness :
    create_token_pair_internal "u1" db1 none none collidingSupply 10
      = Except.error (PyErr.integrity jtiConflictMsg) :=
  create_token_pair_collision_error_surfaces "u1" db1 none none collidingSupply 10
    (by decide) (by decide)

/-- After `revoke_all_user_tokens`, the rows of other owners are
exactly the rows they were before. -/
theorem filter_map_revoke_ne (l : List SessionRow) (uid : String) (now : Nat) :
    ((l.map fun r => if r.user_id = uid then { r with revoked_at := some now } else r).filter
        fun r => decide (r.user_id ≠ uid))
      = l.filter fun r => decide (r.user_id ≠ uid) := by
  induction l with
  | nil => rfl
  | cons a t ih =>
    by_cases ha : a.user_id = uid
    · simp [List.filter, ha]
      simpa using ih
    · simp [List.filter, ha]
      simpa using ih

/-- C7: `revoke_all_user_tokens(owner)` returns `True`, marks every
session row of the owner revoked (in particular every non-revoked one),
and leaves the rows of every other owner — and the users table —
completely unchanged. -/
theorem revoke_all_only_target_owner (uid : String) (db : DB) (now : Nat) :
    (revoke_all_user_tokens uid db now).1 = true ∧
    (∀ r ∈ (revoke_all_user_tokens uid db now).2.sessions,
       r.user_id = uid → r.revoked_at = some now) ∧
    ((revoke_all_user_tokens uid db now).2.sessions.filter (fun r => decide (r.user_id ≠ uid))
       = db.sessions.filter fun r => decide (r.user_id ≠ uid)) ∧
    (revoke_all_user_tokens uid db now).2.users = db.users := by
  refine ⟨rfl, ?_, ?_, rfl⟩
  · intro r hr hru
    unfold revoke_all_user_tokens at hr
    rw [List.mem_map] at hr
    obtain ⟨x, hx, hfx⟩ := hr
    by_cases hc : x.user_id = uid
    · rw [← hfx]
      simp [hc]
    · rw [← hfx] at hru
      simp [hc] at hru
  · unfold revoke_all_user_tokens
    exact filter_map_revoke_ne db.sessions uid now

/-- C7 witness at the two-owner state `db3`: revoking all of `u1`
leaves the session of `u2` unchanged (still live) while the session of
`u1` is revoked. -/
theorem revoke_all_only_target_owner_witness :
    ({ sess1 with revoked_at := some 7 } : SessionRow).revoked_at = some 7 ∧
    ((revoke_all_user_tokens "u1" db3 7).2.sessions.filter (fun r => decide (r.user_id ≠ "u1"))
       = db3.sessions.filter fun r => decide (r.user_id ≠ "u1")) :=
  ⟨(revoke_all_only_target_owner "u1" db3 7).2.1
     { sess1 with revoked_at := some 7 } (by decide) (by decide),
   (revoke_all_only_target_owner "u1" db3 7).2.2.1⟩

/-- C8: `_fetch_user_claims` raises `AuthenticationError` when the
principal is absent and when its status is SUSPENDED or DEACTIVATED;
for any other existing principal it returns a claims dict without
raising. -/
theorem fetch_user_claims_spec (db : DB) (uid : String) :
    (db.users.find? (fun u => decide (u.id = uid)) = none →
       ∃ m, fetch_user_claims uid db = Except.error m) ∧
    (∀ u, db.users.find? (fun u2 => decide (u2.id = uid)) = some u →
       ((u.status = UserStatus.SUSPENDED ∨ u.status = UserStatus.DEACTIVATED) →
          ∃ m, fetch_user_claims uid db = Except.error m) ∧
       (u.status ≠ UserStatus.SUSPENDED ∧ u.status ≠ UserStatus.DEACTIVATED →
          ∃ c, fetch_user_claims uid db = Except.ok c)) := by
  constructor
  · intro h
    refine ⟨"User not found", ?_⟩
    unfold fetch_user_claims
    rw [h]
  · intro u hu
    constructor
    · intro hs
      refine ⟨"Account is " ++ u.status.value.toLower, ?_⟩
      unfold fetch_user_claims
      rw [hu]
      have hval : u.status.value = "SUSPENDED" ∨ u.status.value = "DEACTIVATED" := by
        cases hs with
        | inl h1 => exact Or.inl (by rw [h1]; rfl)
        | inr h1 => exact Or.inr (by rw [h1]; rfl)
      dsimp only
      rw [if_pos hval]
    · intro hgood
      obtain ⟨h1, h2⟩ := hgood
      have hval : ¬ (u.status.value = "SUSPENDED" ∨ u.status.value = "DEACTIVATED") := by
        cases hst : u.status with
        | SUSPENDED => exact absurd hst h1
        | DEACTIVATED => exact absurd hst h2
        | PENDING_VERIFICATION => decide
        | VERIFIED => decide
        | ACTIVE => decide
      unfold fetch_user_claims
      rw [hu]
      dsimp only
      rw [if_neg hval]
      exact ⟨_, rfl⟩

/-- C8 witness: the suspended principal `u2` of `db2` makes the claims
builder raise. -/
theorem fetch_user_claims_spec_witness :
    ∃ m, fetch_user_claims "u2" db2 = Except.error m :=
  (((fetch_user_claims_spec db2 "u2").2 suspendedEmployer (by decide)).1
    (Or.inl (by decide)))

/-- C9: a refresh token issued by `create_refresh_token` verifies
before its expiry, recovering the very payload that was signed, whose
`jti` equals the returned token id and whose type tag is `"refresh"`;
and a token issued by `create_access_token` (type tag `"access"`) never
passes `verify_refresh_token`. -/
theorem refresh_token_round_trip (claims claims2 : Payload) (jti : String)
    (delta delta2 : Option Nat) (now now2 now3 now4 : Nat)
    (h : now2 < now + refreshDelta delta) :
    verify_refresh_token (create_refresh_token claims jti delta now).1 now2
      = Except.ok (create_refresh_token claims jti delta now).1.payload ∧
    dget (create_refresh_token claims jti delta now).1.payload "jti" = some (CVal.s jti) ∧
    dget (create_refresh_token claims jti delta now).1.payload "type"
      = some (CVal.s "refresh") ∧
    (create_refresh_token claims jti delta now).2 = jti ∧
    (verify_refresh_token (create_access_token claims2 delta2 now3) now4).isOk = false := by
  have hjti : dget (create_refresh_token claims jti delta now).1.payload "jti"
      = some (CVal.s jti) := by
    simp [create_refresh_token, dget_dset_self]
  have htype : dget (create_refresh_token claims jti delta now).1.payload "type"
      = some (CVal.s "refresh") := by
    show dget (dset _ "jti" _) "type" = _
    rw [dget_dset_ne _ "jti" "type" _ (by decide), dget_dset_self]
  have hexp : dget (create_refresh_token claims jti delta now).1.payload "exp"
      = some (CVal.n (now + refreshDelta delta)) := by
    show dget (dset _ "jti" _) "exp" = _
    rw [dget_dset_ne _ "jti" "exp" _ (by decide),
      dget_dset_ne _ "type" "exp" _ (by decide), dget_dset_self]
  refine ⟨?_, hjti, htype, rfl, ?_⟩
  · have hrej : expClaimRejects (create_refresh_token claims jti delta now).1.payload now2
        = false := by
      unfold expClaimRejects
      rw [hexp]
      simp
      omega
    unfold verify_refresh_token
    rw [if_neg (by simp [create_refresh_token])]
    simp [hrej, htype]
  · have htype2 : dget (create_access_token claims2 delta2 now3).payload "type"
        = some (CVal.s "access") := by
      simp [create_access_token, dget_dset_self]
    unfold verify_refresh_token
    rw [if_neg (by simp [create_access_token])]
    by_cases hrej : expClaimRejects (create_access_token claims2 delta2 now3).payload now4 = true
    · simp [hrej, Except.isOk, Except.toBool]
    · simp [hrej, htype2, Except.isOk, Except.toBool]

/-- C9 witness at a concrete claims map and concrete times. -/
theorem refresh_token_round_trip_witness :
    verify_refresh_token (create_refresh_token [("sub", CVal.s "u1")] "J9" (some 50) 0).1 30
      = Except.ok (create_refresh_token [("sub", CVal.s "u1")] "J9" (some 50) 0).1.payload ∧
    dget (create_refresh_token [("sub", CVal.s "u1")] "J9" (some 50) 0).1.payload "jti"
      = some (CVal.s "J9") ∧
    dget (create_refresh_token [("sub", CVal.s "u1")] "J9" (some 50) 0).1.payload "type"
      = some (CVal.s "refresh") ∧
    (create_refresh_token [("sub", CVal.s "u1")] "J9" (some 50) 0).2 = "J9" ∧
    (verify_refresh_token (create_access_token [("sub", CVal.s "u1")] (some 50) 0) 30).isOk
      = false :=
  refresh_token_round_trip [("sub", CVal.s "u1")] [("sub", CVal.s "u1")] "J9"
    (some 50) (some 50) 0 30 0 30 (by decide)

/-- C10: when the presented token verifies, its session row is live,
but the claims rebuild for the owner would raise (owner missing or in a
disallowed status), Refresh fails, persists no new session row, and
leaves the old row present with `revoked_at` still NULL. (In the source
the rotation step in fact raises `TypeError` before even reaching the
claims rebuild — with the same no-persistence outcome.) -/
theorem refresh_claims_failure_preserves_state (tok : Jwt) (db : DB) (now : Nat)
    (p : Payload) (jv : CVal) (row : SessionRow)
    (hv : verify_refresh_token tok now = Except.ok p)
    (hj : dget p "jti" = some jv)
    (hfind : db.sessions.find? (fun r => decide (CVal.s r.jti = jv)) = some row)
    (hrev : row.revoked_at = none)
    (hexp : now ≤ row.expires_at)
    (hclaims : (fetch_user_claims row.user_id db).isOk = false) :
    (refresh_internal tok db now).result.isOk = false ∧
    (refresh_internal tok db now).db = db ∧
    row ∈ (refresh_internal tok db now).db.sessions ∧
    row.revoked_at = none ∧
    readOnlyTrace (refresh_internal tok db now).trace = true := by
  have h := refresh_never_writes tok db now
  refine ⟨h.1, h.2.1, ?_, hrev, h.2.2⟩
  rw [h.2.1]
  exact List.mem_of_find?_eq_some hfind

/-- C10 witness: the suspended owner `u2` with the live session `J2`. -/
theorem refresh_claims_failure_preserves_state_witness :
    (refresh_internal tok2 db2 10).result.isOk = false ∧
    (refresh_internal tok2 db2 10).db = db2 ∧
    sess2 ∈ (refresh_internal tok2 db2 10).db.sessions ∧
    sess2.revoked_at = none ∧
    readOnlyTrace (refresh_internal tok2 db2 10).trace = true :=
  refresh_claims_failure_preserves_state tok2 db2 10 tok2.payload (CVal.s "J2") sess2
    (by decide) (by decide) (by decide) (by decide) (by decide) (by decide)

end Spellhire
